import Mathlib

/-!
Shallow embedding of `src/main.cpp` (Untouchaballz, an AR.Drone colour-tracking
and following program) and proofs about its detection-to-command pipeline.

Modelling conventions:
* C `int` values become `ℤ`; C `int` division truncates toward zero, which is
  `Int.tdiv` in Lean.
* C `double` values (moments, areas, velocity setpoints) become `ℚ`; the
  properties proved here (signs, thresholds, ranges, strict monotonicity with
  steps of at least 1/200) are robust under double rounding error.
* Global mutable state is passed explicitly: the four velocity setpoints as a
  `Velocities` record, the per-camera configuration as function arguments, the
  two configuration XML files as a `Store`.
* External library calls are not re-implemented: `findContours` of an
  all-background mask yields an empty contour list, and `drawContours` with the
  sentinel id on an empty list leaves the `result` image black, so the
  empty-mask pipeline is entered at those points (empty list, all-zero image).
-/

namespace Untouchaballz

/-- Frame width, `#define WIDTH 640` in main.cpp. -/
def WIDTH : ℤ := 640

/-- Frame height, `#define HEIGHT 360` in main.cpp. -/
def HEIGHT : ℤ := 360

/-- The x-axis half of the deadzone test of `followObject` (main.cpp lines
322/326/341/346): `pos_x < (WIDTH - deadzone_x) / 2 || pos_x > (WIDTH + deadzone_x) / 2`
with C truncating integer division. -/
def xOutsideDeadzone (pos_x deadzone_x : ℤ) : Bool :=
  decide (pos_x < Int.tdiv (WIDTH - deadzone_x) 2) ||
    decide (Int.tdiv (WIDTH + deadzone_x) 2 < pos_x)

/-- The y-axis half of the deadzone test of `followObject`:
`pos_y < (HEIGHT - deadzone_y) / 2 || pos_y > (HEIGHT + deadzone_y) / 2`. -/
def yOutsideDeadzone (pos_y deadzone_y : ℤ) : Bool :=
  decide (pos_y < Int.tdiv (HEIGHT - deadzone_y) 2) ||
    decide (Int.tdiv (HEIGHT + deadzone_y) 2 < pos_y)

/-- The pair of per-axis deadzone verdicts, as used by `followObject`. -/
def outsideDeadzone (pos_x pos_y deadzone_x deadzone_y : ℤ) : Bool × Bool :=
  (xOutsideDeadzone pos_x deadzone_x, yOutsideDeadzone pos_y deadzone_y)

/-- The deadzone predicate exactly as §4.4 of the spec words it: `xOut` is
true iff `pos.x` falls left of `(W - zone.width)/2` or right of
`(W + zone.width)/2`, symmetrically for y with `H` and `zone.height`
(divisions read as the reference's truncating integer division). -/
def specOutsideDeadzone (pos_x pos_y zone_w zone_h : ℤ) : Bool × Bool :=
  (decide (pos_x < Int.tdiv (WIDTH - zone_w) 2) ||
     decide (Int.tdiv (WIDTH + zone_w) 2 < pos_x),
   decide (pos_y < Int.tdiv (HEIGHT - zone_h) 2) ||
     decide (Int.tdiv (HEIGHT + zone_h) 2 < pos_y))

/-- The four velocity setpoints: globals `vx`, `vy`, `vz`, `vr` of main.cpp. -/
structure Velocities where
  vx : ℚ
  vy : ℚ
  vz : ℚ
  vr : ℚ
deriving DecidableEq

/-- `followObject`, `case 0` (front camera), main.cpp lines 318-338.
Updates `vz`/`vr` proportionally when the corresponding axis is outside the
deadzone, and sets `vx` from the scaled area thresholds. -/
def followFront (deadzone_x deadzone_y max_area : ℤ) (pos_x pos_y : ℤ)
    (area : ℚ) (v : Velocities) : Velocities :=
  let v1 := if yOutsideDeadzone pos_y deadzone_y then
      { v with vz := ((pos_y - Int.tdiv HEIGHT 2 : ℤ) : ℚ) / (-250) } else v
  let v2 := if xOutsideDeadzone pos_x deadzone_x then
      { v1 with vr := ((pos_x - Int.tdiv WIDTH 2 : ℤ) : ℚ) / (-200) } else v1
  let v3 := if area < ((max_area * 100000 : ℤ) : ℚ) then
      { v2 with vx := 3 / 10 } else v2
  let v4 := if area > (((max_area + 10) * 100000 : ℤ) : ℚ) then
      { v3 with vx := -(3 / 10) } else v3
  v4

/-- `followObject`, `case 1` (bottom camera), main.cpp lines 340-360.
Returns the new setpoints together with whether `ardrone.landing()` was
called during this invocation. -/
def followBottom (deadzone_x deadzone_y max_area : ℤ) (pos_x pos_y : ℤ)
    (area : ℚ) (auto_land : Bool) (v : Velocities) : Velocities × Bool :=
  let v1 := if yOutsideDeadzone pos_y deadzone_y then
      { v with vx := ((pos_y - Int.tdiv HEIGHT 2 : ℤ) : ℚ) / (-400) } else v
  let v2 := if xOutsideDeadzone pos_x deadzone_x then
      { v1 with vy := ((pos_x - Int.tdiv WIDTH 2 : ℤ) : ℚ) / (-800) } else v1
  if auto_land then
    ({ v2 with vz := -(1 / 10) }, decide (area > ((max_area * 100000 : ℤ) : ℚ)))
  else
    (v2, false)

/-- `followObject`'s `switch (camera)` dispatch (main.cpp lines 314-365);
`camera = false` is the front camera (`case 0`), `camera = true` the bottom
camera (`case 1`).  Second component: whether a land command was issued. -/
def followObject (camera : Bool) (deadzone_x deadzone_y max_area : ℤ)
    (pos_x pos_y : ℤ) (area : ℚ) (auto_land : Bool) (v : Velocities) :
    Velocities × Bool :=
  if camera then
    followBottom deadzone_x deadzone_y max_area pos_x pos_y area auto_land v
  else
    (followFront deadzone_x deadzone_y max_area pos_x pos_y area v, false)

/-- Per-frame detection result of `detectObject` (main.cpp lines 260-312):
the return value (`found`), the global `area`, and the globals
`pos_x`/`pos_y` (only overwritten when the area threshold is passed). -/
structure Detection where
  found : Bool
  area : ℚ
  pos_x : ℤ
  pos_y : ℤ
deriving DecidableEq

/-- The decision tail of `detectObject` (main.cpp lines 297-311), taking the
image moments of the filled largest-contour image: stores `m00` in `area`,
and iff `area > min_area * 100000` updates the centroid and returns 1.
The C double-to-int centroid conversion truncates; moments of the mask are
nonnegative, so `Rat.floor` matches. -/
def detectObject (m00 m10 m01 : ℚ) (min_area old_x old_y : ℤ) : Detection :=
  if m00 > ((min_area * 100000 : ℤ) : ℚ) then
    { found := true, area := m00,
      pos_x := Rat.floor (m10 / m00), pos_y := Rat.floor (m01 / m00) }
  else
    { found := false, area := m00, pos_x := old_x, pos_y := old_y }

/-- The largest-contour selection loop of `detectObject` (main.cpp lines
278-290): running strict maximum over the contour areas, starting from
`contour_max_area = 0` and `largest_contour_id = -1` (`none`). -/
def selectLargestAux : List ℚ → ℕ → ℚ → Option ℕ → Option ℕ
  | [], _, _, best => best
  | a :: rest, i, best_area, best =>
    if a > best_area then selectLargestAux rest (i + 1) a (some i)
    else selectLargestAux rest (i + 1) best_area best

/-- `selectLargest areas` is the index the selection loop ends with
(`none` encodes the C sentinel `-1`). -/
def selectLargest (areas : List ℚ) : Option ℕ :=
  selectLargestAux areas 0 0 none

/-- Zeroth image moment of a 640×360 single-channel image: the sum of all
pixel values (OpenCV `moments(...).m00` on the filled `result` image). -/
def imageM00 (img : ℕ → ℕ → ℚ) : ℚ :=
  ∑ y ∈ Finset.range 360, ∑ x ∈ Finset.range 640, img y x

/-- The all-black image: the `result` image when no contour is drawn. -/
def zeroImage : ℕ → ℕ → ℚ := fun _ _ => 0

/-- The detection/follow fragment of the main loop (main.cpp lines 402-412):
given the detection result and the `follow` flag, invoke `followObject` or
leave the setpoints alone.  Components of the result: the velocity
setpoints after the fragment, whether `followObject` was invoked, and
whether a land command was issued. -/
def trackCycle (camera follow auto_land : Bool)
    (deadzone_x deadzone_y max_area : ℤ) (det : Detection) (v : Velocities) :
    Velocities × Bool × Bool :=
  if det.found then
    if follow then
      let r := followObject camera deadzone_x deadzone_y max_area
        det.pos_x det.pos_y det.area auto_land v
      (r.1, true, r.2)
    else (v, false, false)
  else (v, false, false)

/-- Repeated bottom-camera follow cycles over a list of per-cycle detection
inputs `(pos_x, pos_y, area)`, counting how many land commands are issued
(the main loop calls `followObject` once per cycle with `camera = 1`). -/
def runBottomCycles (deadzone_x deadzone_y max_area : ℤ) (auto_land : Bool) :
    List (ℤ × ℤ × ℚ) → Velocities → ℕ
  | [], _ => 0
  | c :: rest, v =>
    let r := followBottom deadzone_x deadzone_y max_area c.1 c.2.1 c.2.2 auto_land v
    (if r.2 then 1 else 0) +
      runBottomCycles deadzone_x deadzone_y max_area auto_land rest r.1

/-- One camera mode's persisted configuration record: the ten values written
by `saveConfigValues` / read by `loadConfigValues` (main.cpp lines 138-190). -/
structure Config where
  hue_low : ℤ
  hue_high : ℤ
  sat_low : ℤ
  sat_high : ℤ
  val_low : ℤ
  val_high : ℤ
  min_area : ℤ
  max_area : ℤ
  deadzone_x : ℤ
  deadzone_y : ℤ
deriving DecidableEq

/-- The configuration store: the two XML files, `none` when a file is
absent. -/
structure Store where
  front : Option Config
  bottom : Option Config
deriving DecidableEq

/-- Reading a missing `FileStorage` leaves each value at the `>>` operator's
default `int()`, i.e. zero. -/
def defaultConfig : Config :=
  { hue_low := 0, hue_high := 0, sat_low := 0, sat_high := 0,
    val_low := 0, val_high := 0, min_area := 0, max_area := 0,
    deadzone_x := 0, deadzone_y := 0 }

/-- The mode-related program state: the store (filesystem), the `camera`
flag (`false` = front = 0, `true` = bottom = 1) and the active globals. -/
structure ModeState where
  store : Store
  camera : Bool
  active : Config
deriving DecidableEq

/-- `saveConfigValues` (main.cpp lines 165-190): write the active globals to
the file of the current camera mode. -/
def saveConfigValues (m : ModeState) : ModeState :=
  if m.camera then
    { m with store := { m.store with bottom := some m.active } }
  else
    { m with store := { m.store with front := some m.active } }

/-- `loadConfigValues` (main.cpp lines 138-163): read the current camera
mode's file into the active globals (zeros when the file is absent). -/
def loadConfigValues (m : ModeState) : ModeState :=
  { m with active :=
      (if m.camera then m.store.bottom else m.store.front).getD defaultConfig }

/-- The `'c'` key handler (main.cpp lines 237-244): save the current mode's
values, flip `camera`, load the other mode's values. -/
def toggleCamera (m : ModeState) : ModeState :=
  let m1 := saveConfigValues m
  let m2 := { m1 with camera := !m1.camera }
  loadConfigValues m2

lemma tdiv_640 : Int.tdiv 640 2 = 320 := rfl

lemma tdiv_360 : Int.tdiv 360 2 = 180 := rfl

lemma tdiv_635 : Int.tdiv 635 2 = 317 := rfl

lemma tdiv_645 : Int.tdiv 645 2 = 322 := rfl

/-- C truncating division by two in terms of Euclidean division. -/
lemma tdiv_two (n : ℤ) : Int.tdiv n 2 = if 0 ≤ n then n / 2 else -(-n / 2) := by
  split
  · exact Int.tdiv_eq_ediv (by omega) (by norm_num)
  · rw [show n = -(-n) by ring, Int.neg_tdiv, Int.tdiv_eq_ediv (by omega) (by norm_num)]
    ring_nf

/-- Field equation: `followFront` leaves `vy` alone. -/
lemma followFront_vy (dzx dzy maxa px py : ℤ) (area : ℚ) (v : Velocities) :
    (followFront dzx dzy maxa px py area v).vy = v.vy := by
  simp only [followFront]
  split_ifs <;> rfl

/-- Field equation for `vr` under `followFront`. -/
lemma followFront_vr (dzx dzy maxa px py : ℤ) (area : ℚ) (v : Velocities) :
    (followFront dzx dzy maxa px py area v).vr =
      if xOutsideDeadzone px dzx then ((px - 320 : ℤ) : ℚ) / (-200) else v.vr := by
  simp only [followFront, WIDTH, tdiv_640]
  split_ifs <;> rfl

/-- Field equation for `vz` under `followFront`. -/
lemma followFront_vz (dzx dzy maxa px py : ℤ) (area : ℚ) (v : Velocities) :
    (followFront dzx dzy maxa px py area v).vz =
      if yOutsideDeadzone py dzy then ((py - 180 : ℤ) : ℚ) / (-250) else v.vz := by
  simp only [followFront, HEIGHT, tdiv_360]
  split_ifs <;> rfl

/-- Field equation for `vx` under `followFront`. -/
lemma followFront_vx (dzx dzy maxa px py : ℤ) (area : ℚ) (v : Velocities) :
    (followFront dzx dzy maxa px py area v).vx =
      if area > (((maxa + 10) * 100000 : ℤ) : ℚ) then -(3 / 10)
      else if area < ((maxa * 100000 : ℤ) : ℚ) then 3 / 10
      else v.vx := by
  simp only [followFront]
  split_ifs <;> rfl

/-- Field equation for `vx` under `followBottom`. -/
lemma followBottom_vx (dzx dzy maxa px py : ℤ) (area : ℚ) (al : Bool) (v : Velocities) :
    ((followBottom dzx dzy maxa px py area al v).1).vx =
      if yOutsideDeadzone py dzy then ((py - 180 : ℤ) : ℚ) / (-400) else v.vx := by
  simp only [followBottom, HEIGHT, tdiv_360]
  split_ifs <;> rfl

/-- Field equation for `vy` under `followBottom`. -/
lemma followBottom_vy (dzx dzy maxa px py : ℤ) (area : ℚ) (al : Bool) (v : Velocities) :
    ((followBottom dzx dzy maxa px py area al v).1).vy =
      if xOutsideDeadzone px dzx then ((px - 320 : ℤ) : ℚ) / (-800) else v.vy := by
  simp only [followBottom, WIDTH, tdiv_640]
  split_ifs <;> rfl

/-- Field equation for `vz` under `followBottom`. -/
lemma followBottom_vz (dzx dzy maxa px py : ℤ) (area : ℚ) (al : Bool) (v : Velocities) :
    ((followBottom dzx dzy maxa px py area al v).1).vz =
      if al then -(1 / 10) else v.vz := by
  simp only [followBottom]
  split_ifs <;> rfl

/-- Field equation: `followBottom` leaves `vr` alone. -/
lemma followBottom_vr (dzx dzy maxa px py : ℤ) (area : ℚ) (al : Bool) (v : Velocities) :
    ((followBottom dzx dzy maxa px py area al v).1).vr = v.vr := by
  simp only [followBottom]
  split_ifs <;> rfl

/-- A `followBottom` call issues a land command iff auto-land is on and
the area exceeds the scaled maximum. -/
lemma followBottom_land (dzx dzy maxa px py : ℤ) (area : ℚ) (al : Bool) (v : Velocities) :
    (followBottom dzx dzy maxa px py area al v).2 =
      (al && decide (((maxa * 100000 : ℤ) : ℚ) < area)) := by
  simp only [followBottom]
  split_ifs with h <;> simp [h]

/-- Exact characterization of the x-axis deadzone verdict at offset `off`
from frame center, for a deadzone no wider than the frame: the truncating
division makes the left boundary use a rounded-up half-width. -/
lemma xOutside_iff (off dz : ℤ) (h0 : 0 ≤ dz) (h1 : dz ≤ 640) :
    xOutsideDeadzone (320 + off) dz = true ↔ (dz / 2 < off ∨ (dz + 1) / 2 < -off) := by
  unfold xOutsideDeadzone
  simp only [WIDTH, Bool.or_eq_true, decide_eq_true_eq]
  rw [tdiv_two, tdiv_two, if_pos (by omega), if_pos (by omega)]
  omega

/-- Bound for a quotient by a negated positive constant in terms of a bound
on the numerator. -/
lemma abs_div_neg_le (x c B : ℚ) (hc : 0 < c) (hx : |x| ≤ B) : |x / -c| ≤ B / c := by
  rw [div_neg, abs_neg, abs_div, abs_of_pos hc]
  gcongr

/-- Bounds on an integer transfer to its rational cast, as an absolute
value. -/
lemma abs_intCast_le (n b : ℤ) (h1 : -b ≤ n) (h2 : n ≤ b) : |((n : ℤ) : ℚ)| ≤ (b : ℚ) := by
  rw [← Int.cast_abs]
  exact_mod_cast abs_le.mpr ⟨h1, h2⟩

/-- C1: for every region, `detectObject` reports `found = true` iff the
zeroth moment (area) strictly exceeds `min_area * 100000`, and the area is
stored for diagnostics whether or not the threshold is passed. -/
theorem detect_found_iff_area_above_min :
    ∀ (m00 m10 m01 : ℚ) (min_area old_x old_y : ℤ),
      ((detectObject m00 m10 m01 min_area old_x old_y).found = true ↔
        ((min_area * 100000 : ℤ) : ℚ) < m00) ∧
      (detectObject m00 m10 m01 min_area old_x old_y).area = m00 := by
  intro m00 m10 m01 mina ox oy
  unfold detectObject
  split <;> simp_all

theorem detect_found_iff_area_above_min_witness :
    (detectObject 1 0 0 0 0 0).found = true :=
  (detect_found_iff_area_above_min 1 0 0 0 0 0).1.mpr (by norm_num)

/-- C2: the deadzone check agrees with the spec's formula, and the frame
center (W/2, H/2) = (320, 180) is reported inside on both axes for every
non-negative deadzone size. -/
theorem deadzone_matches_spec_and_center_inside :
    ∀ (pos_x pos_y zone_w zone_h : ℤ),
      outsideDeadzone pos_x pos_y zone_w zone_h =
        specOutsideDeadzone pos_x pos_y zone_w zone_h ∧
      (0 ≤ zone_w → 0 ≤ zone_h →
        outsideDeadzone 320 180 zone_w zone_h = (false, false)) := by
  intro px py zw zh
  refine ⟨rfl, fun hw hh => ?_⟩
  unfold outsideDeadzone xOutsideDeadzone yOutsideDeadzone
  simp only [WIDTH, HEIGHT, Prod.mk.injEq, Bool.or_eq_false_iff,
    decide_eq_false_iff_not, not_lt]
  rw [tdiv_two, tdiv_two, tdiv_two, tdiv_two]
  refine ⟨⟨?_, ?_⟩, ?_, ?_⟩ <;> (split <;> omega)

theorem deadzone_matches_spec_and_center_inside_witness :
    outsideDeadzone 320 180 0 0 = (false, false) :=
  (deadzone_matches_spec_and_center_inside 320 180 0 0).2 (by norm_num) (by norm_num)

/-- C3 counterexample: with deadzone width 5 the centroid offset `-3`
satisfies `|off| > width / 2` yet the point is still treated as inside
(the truncating division widens the left boundary), so the yaw-rate
setpoint keeps its previous value `-1` instead of being given the sign
opposite to the offset (positive). -/
theorem front_yaw_claim_counterexample :
    2 * |(-3 : ℤ)| > 5 ∧
    (followFront 5 0 0 (320 + -3) 180 0 ⟨0, 0, 0, -1⟩).vr = -1 ∧
    ¬(0 < (followFront 5 0 0 (320 + -3) 180 0 ⟨0, 0, 0, -1⟩).vr) := by
  have h : (followFront 5 0 0 (320 + -3) 180 0 ⟨0, 0, 0, -1⟩).vr = -1 := by
    norm_num [followFront, xOutsideDeadzone, yOutsideDeadzone, WIDTH, HEIGHT,
      tdiv_640, tdiv_360, tdiv_635, tdiv_645]
  refine ⟨by norm_num, h, ?_⟩
  rw [h]
  norm_num

/-- C3 amended: in FRONT mode, with the deadzone width in [0, W], the
yaw-rate setpoint is written — to `-off/200`, of sign opposite to the
offset and of magnitude strictly increasing in `|off|` — exactly when
`off > ⌊w/2⌋` on the right or `-off > ⌈w/2⌉` on the left (the left bound
is one pixel wider at odd widths); when the x axis is inside the deadzone
the yaw-rate setpoint coasts unchanged. -/
theorem front_yaw_control_amended :
    ∀ (dzx dzy maxa py : ℤ) (area : ℚ) (v : Velocities),
      0 ≤ dzx → dzx ≤ 640 →
      (∀ off : ℤ, (dzx / 2 < off ∨ (dzx + 1) / 2 < -off) →
        (followFront dzx dzy maxa (320 + off) py area v).vr = -((off : ℚ) / 200)) ∧
      (∀ off : ℤ, dzx / 2 < off →
        (followFront dzx dzy maxa (320 + off) py area v).vr < 0) ∧
      (∀ off : ℤ, (dzx + 1) / 2 < -off →
        0 < (followFront dzx dzy maxa (320 + off) py area v).vr) ∧
      (∀ off₁ off₂ : ℤ,
        (dzx / 2 < off₁ ∨ (dzx + 1) / 2 < -off₁) →
        (dzx / 2 < off₂ ∨ (dzx + 1) / 2 < -off₂) →
        |off₁| < |off₂| →
        |(followFront dzx dzy maxa (320 + off₁) py area v).vr| <
          |(followFront dzx dzy maxa (320 + off₂) py area v).vr|) ∧
      (∀ off : ℤ, ¬(dzx / 2 < off ∨ (dzx + 1) / 2 < -off) →
        (followFront dzx dzy maxa (320 + off) py area v).vr = v.vr) := by
  intro dzx dzy maxa py area v h0 h1
  have hval : ∀ off : ℤ, (dzx / 2 < off ∨ (dzx + 1) / 2 < -off) →
      (followFront dzx dzy maxa (320 + off) py area v).vr = -((off : ℚ) / 200) := by
    intro off h
    rw [followFront_vr, if_pos ((xOutside_iff off dzx h0 h1).mpr h)]
    push_cast
    ring
  refine ⟨hval, ?_, ?_, ?_, ?_⟩
  · intro off h
    rw [hval off (Or.inl h)]
    have hp : (0 : ℚ) < (off : ℚ) := by exact_mod_cast by omega
    have h200 : (0 : ℚ) < (off : ℚ) / 200 := by positivity
    linarith
  · intro off h
    rw [hval off (Or.inr h)]
    have hp : (off : ℚ) < 0 := by exact_mod_cast by omega
    have h200 : (off : ℚ) / 200 < 0 := div_neg_of_neg_of_pos hp (by norm_num)
    linarith
  · intro o1 o2 ho1 ho2 hlt
    rw [hval o1 ho1, hval o2 ho2, abs_neg, abs_neg, abs_div, abs_div,
      abs_of_pos (show (0 : ℚ) < 200 by norm_num)]
    have hc : |(o1 : ℚ)| < |(o2 : ℚ)| := by
      rw [← Int.cast_abs, ← Int.cast_abs]
      exact_mod_cast hlt
    gcongr
  · intro off h
    rw [followFront_vr, if_neg]
    simp only [Bool.not_eq_true]
    rw [Bool.eq_false_iff]
    intro hx
    exact h ((xOutside_iff off dzx h0 h1).mp hx)

theorem front_yaw_control_amended_witness :
    (followFront 4 0 0 (320 + 3) 180 0 ⟨0, 0, 0, 0⟩).vr = -((3 : ℚ) / 200) :=
  (front_yaw_control_amended 4 0 0 180 0 ⟨0, 0, 0, 0⟩ (by norm_num) (by norm_num)).1
    3 (Or.inl (by norm_num))

/-- C4: the FRONT forward/back setpoint: approach (0.3) strictly below the
scaled maximum, back off (-0.3) strictly above maximum-plus-margin, and
coast unchanged in between. -/
theorem front_vx_thresholds :
    ∀ (deadzone_x deadzone_y max_area pos_x pos_y : ℤ) (area : ℚ) (v : Velocities),
      (area < ((max_area * 100000 : ℤ) : ℚ) →
        (followFront deadzone_x deadzone_y max_area pos_x pos_y area v).vx = 3 / 10) ∧
      (area > (((max_area + 10) * 100000 : ℤ) : ℚ) →
        (followFront deadzone_x deadzone_y max_area pos_x pos_y area v).vx = -(3 / 10)) ∧
      (((max_area * 100000 : ℤ) : ℚ) ≤ area →
        area ≤ (((max_area + 10) * 100000 : ℤ) : ℚ) →
        (followFront deadzone_x deadzone_y max_area pos_x pos_y area v).vx = v.vx) := by
  intro dzx dzy maxa px py area v
  have hlt : ((maxa * 100000 : ℤ) : ℚ) < (((maxa + 10) * 100000 : ℤ) : ℚ) := by
    push_cast
    linarith
  refine ⟨fun h => ?_, fun h => ?_, fun h1 h2 => ?_⟩ <;>
    (rw [followFront_vx]; split_ifs <;> first | rfl | linarith)

theorem front_vx_thresholds_witness :
    (followFront 0 0 0 0 0 (-1) ⟨0, 0, 0, 0⟩).vx = 3 / 10 :=
  (front_vx_thresholds 0 0 0 0 0 (-1) ⟨0, 0, 0, 0⟩).1 (by norm_num)

/-- C5 counterexample: a two-cycle episode with auto-land on and area 1,
above the scaled maximum `0 * 100000` on every cycle, issues the land
command on both cycles — more than once per continuous episode. -/
theorem land_once_per_episode_counterexample :
    ((0 * 100000 : ℤ) : ℚ) < 1 ∧
    ¬(runBottomCycles 0 0 0 true
        [(320, 180, 1), (320, 180, 1)] ⟨0, 0, 0, 0⟩ ≤ 1) := by
  have h2 : runBottomCycles 0 0 0 true
      [(320, 180, 1), (320, 180, 1)] ⟨0, 0, 0, 0⟩ = 2 := by
    norm_num [runBottomCycles, followBottom, xOutsideDeadzone, yOutsideDeadzone,
      WIDTH, HEIGHT, tdiv_640, tdiv_360]
  refine ⟨by norm_num, ?_⟩
  rw [h2]
  norm_num

/-- C5 amended: in BOTTOM mode the land command is issued on exactly the
cycles where auto-land is enabled and the scaled maximum is exceeded —
hence once per such cycle (at least once per episode), not at most once
per episode. -/
theorem land_every_qualifying_cycle :
    ∀ (dzx dzy maxa px py : ℤ) (area : ℚ) (al : Bool) (v : Velocities),
      ((followBottom dzx dzy maxa px py area al v).2 = true ↔
        (al = true ∧ ((maxa * 100000 : ℤ) : ℚ) < area)) ∧
      (∀ (cycles : List (ℤ × ℤ × ℚ)) (v0 : Velocities),
        al = true → (∀ c ∈ cycles, ((maxa * 100000 : ℤ) : ℚ) < c.2.2) →
        runBottomCycles dzx dzy maxa al cycles v0 = cycles.length) := by
  intro dzx dzy maxa px py area al v
  constructor
  · rw [followBottom_land]
    cases al <;> simp
  · intro cycles
    induction cycles with
    | nil => intro v0 _ _; rfl
    | cons c rest ih =>
      intro v0 hal hq
      subst hal
      simp only [runBottomCycles]
      rw [followBottom_land]
      have hc : ((maxa * 100000 : ℤ) : ℚ) < c.2.2 := hq c (List.mem_cons_self c rest)
      simp only [Bool.true_and, decide_eq_true hc, if_pos]
      rw [ih _ rfl fun x hx => hq x (List.mem_cons_of_mem c hx)]
      simp [List.length_cons]
      omega

theorem land_every_qualifying_cycle_witness :
    (followBottom 0 0 0 320 180 1 true ⟨0, 0, 0, 0⟩).2 = true :=
  (land_every_qualifying_cycle 0 0 0 320 180 1 true ⟨0, 0, 0, 0⟩).1.mpr
    ⟨rfl, by norm_num⟩

/-- C6 counterexample: a detection centroid at the left edge of the frame
with a zero-size deadzone drives the FRONT yaw-rate setpoint to 8/5,
outside the normalized range [-1, 1]. -/
theorem setpoint_range_counterexample :
    (followFront 0 0 0 0 180 0 ⟨0, 0, 0, 0⟩).vr = 8 / 5 ∧
    ¬((followFront 0 0 0 0 180 0 ⟨0, 0, 0, 0⟩).vr ≤ 1) := by
  have h : (followFront 0 0 0 0 180 0 ⟨0, 0, 0, 0⟩).vr = 8 / 5 := by
    norm_num [followFront, xOutsideDeadzone, yOutsideDeadzone, WIDTH, HEIGHT,
      tdiv_640, tdiv_360]
  refine ⟨h, ?_⟩
  rw [h]
  norm_num

/-- C6 amended: over all centroids inside the 640×360 frame, every setpoint
the follow controller assigns lies in [-1, 1] except the FRONT yaw-rate,
which lies in [-8/5, 8/5] (it leaves [-1, 1] once the centroid is more
than 200 px from center); unassigned setpoints keep their previous
values. -/
theorem setpoints_bounded_amended :
    ∀ (dzx dzy maxa px py : ℤ) (area : ℚ) (al : Bool) (v : Velocities),
      0 ≤ px → px ≤ 639 → 0 ≤ py → py ≤ 359 →
      ((followFront dzx dzy maxa px py area v).vx = v.vx ∨
        (followFront dzx dzy maxa px py area v).vx = 3 / 10 ∨
        (followFront dzx dzy maxa px py area v).vx = -(3 / 10)) ∧
      (followFront dzx dzy maxa px py area v).vy = v.vy ∧
      ((followFront dzx dzy maxa px py area v).vz = v.vz ∨
        |(followFront dzx dzy maxa px py area v).vz| ≤ 1) ∧
      ((followFront dzx dzy maxa px py area v).vr = v.vr ∨
        |(followFront dzx dzy maxa px py area v).vr| ≤ 8 / 5) ∧
      (((followBottom dzx dzy maxa px py area al v).1).vx = v.vx ∨
        |((followBottom dzx dzy maxa px py area al v).1).vx| ≤ 1) ∧
      (((followBottom dzx dzy maxa px py area al v).1).vy = v.vy ∨
        |((followBottom dzx dzy maxa px py area al v).1).vy| ≤ 1) ∧
      (((followBottom dzx dzy maxa px py area al v).1).vz = v.vz ∨
        ((followBottom dzx dzy maxa px py area al v).1).vz = -(1 / 10)) ∧
      ((followBottom dzx dzy maxa px py area al v).1).vr = v.vr := by
  intro dzx dzy maxa px py area al v hx0 hx1 hy0 hy1
  have hxabs : |((px - 320 : ℤ) : ℚ)| ≤ (320 : ℚ) :=
    abs_intCast_le (px - 320) 320 (by omega) (by omega)
  have hyabs : |((py - 180 : ℤ) : ℚ)| ≤ (180 : ℚ) :=
    abs_intCast_le (py - 180) 180 (by omega) (by omega)
  refine ⟨?_, followFront_vy dzx dzy maxa px py area v, ?_, ?_, ?_, ?_, ?_,
    followBottom_vr dzx dzy maxa px py area al v⟩
  · rw [followFront_vx]
    split_ifs <;> simp
  · rw [followFront_vz]
    split_ifs with h
    · right
      calc |((py - 180 : ℤ) : ℚ) / (-250)| ≤ (180 : ℚ) / 250 :=
            abs_div_neg_le _ 250 180 (by norm_num) hyabs
        _ ≤ 1 := by norm_num
    · left; rfl
  · rw [followFront_vr]
    split_ifs with h
    · right
      calc |((px - 320 : ℤ) : ℚ) / (-200)| ≤ (320 : ℚ) / 200 :=
            abs_div_neg_le _ 200 320 (by norm_num) hxabs
        _ ≤ 8 / 5 := by norm_num
    · left; rfl
  · rw [followBottom_vx]
    split_ifs with h
    · right
      calc |((py - 180 : ℤ) : ℚ) / (-400)| ≤ (180 : ℚ) / 400 :=
            abs_div_neg_le _ 400 180 (by norm_num) hyabs
        _ ≤ 1 := by norm_num
    · left; rfl
  · rw [followBottom_vy]
    split_ifs with h
    · right
      calc |((px - 320 : ℤ) : ℚ) / (-800)| ≤ (320 : ℚ) / 800 :=
            abs_div_neg_le _ 800 320 (by norm_num) hxabs
        _ ≤ 1 := by norm_num
    · left; rfl
  · rw [followBottom_vz]
    split_ifs <;> simp

theorem setpoints_bounded_amended_witness :
    (followFront 0 0 0 320 180 0 ⟨1, 2, 3, 4⟩).vy = (2 : ℚ) :=
  (setpoints_bounded_amended 0 0 0 320 180 0 true ⟨1, 2, 3, 4⟩
    (by norm_num) (by norm_num) (by norm_num) (by norm_num)).2.1

/-- C7: when detection fails the follow controller is not invoked for that
cycle and all four velocity setpoints keep exactly their previous
values. -/
theorem no_detection_keeps_setpoints :
    ∀ (camera follow auto_land : Bool) (deadzone_x deadzone_y max_area : ℤ)
      (det : Detection) (v : Velocities),
      det.found = false →
      trackCycle camera follow auto_land deadzone_x deadzone_y max_area det v =
        (v, false, false) := by
  intro cam fo al dzx dzy maxa det v h
  unfold trackCycle
  rw [h]
  simp

theorem no_detection_keeps_setpoints_witness :
    trackCycle false true true 0 0 0 ⟨false, 0, 0, 0⟩ ⟨1, 2, 3, 4⟩ =
      (⟨1, 2, 3, 4⟩, false, false) :=
  no_detection_keeps_setpoints false true true 0 0 0 ⟨false, 0, 0, 0⟩ ⟨1, 2, 3, 4⟩ rfl

/-- C8: an empty mask yields an empty contour list, so the selection loop
returns no region and the estimation on the all-black filled image (zeroth
moment 0) reports `found = false` for every trackbar-representable
(non-negative) `min_area`. -/
theorem empty_mask_no_detection :
    ∀ (min_area old_x old_y : ℤ), 0 ≤ min_area →
      selectLargest [] = none ∧
      (detectObject (imageM00 zeroImage) 0 0 min_area old_x old_y).found = false := by
  intro mina ox oy h
  have hm : imageM00 zeroImage = 0 := by simp [imageM00, zeroImage]
  refine ⟨rfl, ?_⟩
  rw [hm]
  unfold detectObject
  rw [if_neg]
  rw [not_lt]
  exact_mod_cast by omega

theorem empty_mask_no_detection_witness :
    selectLargest [] = none ∧
      (detectObject (imageM00 zeroImage) 0 0 0 0 0).found = false :=
  empty_mask_no_detection 0 0 0 (by norm_num)

/-- C9: starting in FRONT mode with active configuration X, two consecutive
camera toggles land back in FRONT mode with active configuration exactly X,
for every prior content of the configuration store. -/
theorem toggle_toggle_restores_front :
    ∀ (st : Store) (X : Config),
      (toggleCamera (toggleCamera { store := st, camera := false, active := X })).active
          = X ∧
      (toggleCamera (toggleCamera { store := st, camera := false, active := X })).camera
          = false := by
  intro st X
  exact ⟨rfl, rfl⟩

/-- C10: the FRONT branch never writes the left/right setpoint `vy`, the
BOTTOM branch never writes the yaw-rate setpoint `vr`; each keeps its
previous value across the call. -/
theorem mode_branches_frame_effect :
    ∀ (deadzone_x deadzone_y max_area pos_x pos_y : ℤ) (area : ℚ)
      (auto_land : Bool) (v : Velocities),
      (followFront deadzone_x deadzone_y max_area pos_x pos_y area v).vy = v.vy ∧
      ((followBottom deadzone_x deadzone_y max_area pos_x pos_y area
          auto_land v).1).vr = v.vr := by
  intro dzx dzy maxa px py a al v
  exact ⟨followFront_vy dzx dzy maxa px py a v, followBottom_vr dzx dzy maxa px py a al v⟩

end Untouchaballz
